import Mathlib

/-!
Verification of the ComfyUI supervision subsystem of the felix repository.

The embedding models `server/comfy_service.py` (process supervisor,
readiness prober, service client lifecycle) and
`server/tools/builtin/image_tools.py` (workflow construction and the
submit-then-poll job protocol) as pure Lean functions.  Network
responses, process liveness and the exception behavior of OS calls are
supplied by explicit environment values; time is discrete, one unit per
second of the source.  Exceptions that the source catches are modelled
as environment outcomes absorbed at the catch site; operations the
source treats as non-raising (closing the HTTP client pool,
constructing a client object) are modelled as pure updates.
-/

namespace Felix

/-- One iteration of the readiness-probe environment, as observed by
`ComfyUIService._wait_for_ready`: either the OS reports the supervised
process as already exited (`dead`), or the health GET against
`/system_stats` produced no response (`http none`, a raised
`httpx.RequestError` or `httpx.TimeoutException`), or it produced a
response with the given status code (`http (some code)`). -/
inductive ProbeStep where
  | dead : ProbeStep
  | http : Option Nat → ProbeStep
  deriving DecidableEq

/-- Exit path taken by `_wait_for_ready`: `died` and `timeout` both make
the Python function return `False` (distinguished there by the
`comfyui_process_died` versus `comfyui_ready_timeout` log events);
`ready` makes it return `True`. -/
inductive WaitResult where
  | died : WaitResult
  | ready : WaitResult
  | timeout : WaitResult
  deriving DecidableEq

/-- The boolean actually returned by the Python `_wait_for_ready`. -/
def readyBool : WaitResult → Bool
  | .ready => true
  | _ => false

/-- The loop of `_wait_for_ready` (comfy_service.py lines 125-144).
`elapsed` is the wall-clock time since the loop started; the loop
condition is `elapsed < timeout`.  Each iteration first checks process
liveness, then issues the health GET; a non-200 status or a network
error falls through to `asyncio.sleep(1)`, advancing `elapsed` by one.
The result carries the elapsed time at which the function returned. -/
def waitReadyGo (env : Nat → ProbeStep) (timeout : Nat) (elapsed : Nat) :
    WaitResult × Nat :=
  if _h : elapsed < timeout then
    match env elapsed with
    | .dead => (.died, elapsed)
    | .http none => waitReadyGo env timeout (elapsed + 1)
    | .http (some code) =>
        if code = 200 then (.ready, elapsed)
        else waitReadyGo env timeout (elapsed + 1)
  else (.timeout, elapsed)
  termination_by timeout - elapsed
  decreasing_by all_goals omega

/-- `ComfyUIService._wait_for_ready`, started at elapsed time zero. -/
def wait_for_ready (env : Nat → ProbeStep) (timeout : Nat) : WaitResult × Nat :=
  waitReadyGo env timeout 0

/-- Mutable state of a `ComfyUIService` instance: `self.process`
(identified by an opaque pid, `none` when cleared), `self.client`
(identified by an opaque id, `none` when absent) and `self._is_ready`.
Process liveness is not part of the state: `poll()` consults the OS and
is supplied by the environment. -/
structure ComfyState where
  process : Option Nat
  client : Option Nat
  is_ready : Bool
  deriving DecidableEq

/-- State established by `ComfyUIService.__init__` (lines 36-38). -/
def initState : ComfyState :=
  { process := none, client := none, is_ready := false }

/-- `ComfyUIService.is_running` (lines 53-56): a process reference
exists and `poll()` reports it still alive; `alive` is the OS view. -/
def ComfyState.is_running (s : ComfyState) (alive : Nat → Bool) : Bool :=
  match s.process with
  | none => false
  | some p => alive p

/-- Externally visible side effects of `start`/`stop`: spawning a
subprocess, closing the HTTP client, and the two process-group
signals. -/
inductive Action where
  | spawnProc : Nat → Action
  | closeClient : Action
  | sigterm : Action
  | sigkill : Action
  deriving DecidableEq

/-- Environment outcome of the signaling block of `stop` (lines
152-167): the first `killpg(SIGTERM)` raises; or the process exits
within the 10 unit graceful wait; or it ignores SIGTERM and is
SIGKILLed; or the SIGKILL path raises.  Every case reaches the
`finally` block. -/
inductive TermBehavior where
  | raisesAtTerm : TermBehavior
  | exitsGracefully : TermBehavior
  | forcedKill : TermBehavior
  | raisesAtKill : TermBehavior
  deriving DecidableEq

/-- Environment for one `start` call: the OS liveness view consulted by
`is_running`, the outcome of `subprocess.Popen` (`none` when it
raises), the probe outcomes seen by `_wait_for_ready`, the behavior of
the signaling block should `stop` be invoked, and the identity of a
freshly constructed `httpx.AsyncClient`. -/
structure StartEnv where
  alive : Nat → Bool
  spawn : Option Nat
  probe : Nat → ProbeStep
  stopBeh : TermBehavior
  clientId : Nat

/-- `ComfyUIService.stop` (lines 146-170).  The client, when present,
is closed and discarded first.  When a process reference exists the
signaling block runs (any exception in it is caught at line 166) and
the `finally` block clears the process reference and the readiness
flag.  When no process reference exists the `finally` block is never
reached, so `_is_ready` is left untouched.  Returns the new state and
the ordered list of side effects. -/
def stop (beh : TermBehavior) (s : ComfyState) : ComfyState × List Action :=
  let s1 : ComfyState := if s.client.isSome then { s with client := none } else s
  let tr1 : List Action := if s.client.isSome then [.closeClient] else []
  match s1.process with
  | none => (s1, tr1)
  | some _ =>
      let tr2 : List Action :=
        match beh with
        | .raisesAtTerm => []
        | .exitsGracefully => [.sigterm]
        | .forcedKill => [.sigterm, .sigkill]
        | .raisesAtKill => [.sigterm]
      ({ s1 with process := none, is_ready := false }, tr1 ++ tr2)

/-- `ComfyUIService.start` (lines 58-113).  If `is_running` the call
returns `True` immediately (line 65-67).  Otherwise `Popen` either
raises (caught at line 110, `stop` invoked, `False` returned) or
yields a new process reference; `_is_ready` is then assigned from
`_wait_for_ready(timeout=30)`; on readiness a client is constructed
and `True` returned, otherwise `stop` is invoked and `False`
returned.  Returns (result, new state, ordered side effects). -/
def start (env : StartEnv) (s : ComfyState) : Bool × ComfyState × List Action :=
  if s.is_running env.alive then (true, s, [])
  else
    match env.spawn with
    | none =>
        let st := stop env.stopBeh s
        (false, st.1, st.2)
    | some pid =>
        let s1 : ComfyState := { s with process := some pid }
        let r := wait_for_ready env.probe 30
        let s2 : ComfyState := { s1 with is_ready := readyBool r.1 }
        if s2.is_ready then
          (true, { s2 with client := some env.clientId }, [.spawnProc pid])
        else
          let st := stop env.stopBeh s2
          (false, st.1, .spawnProc pid :: st.2)

/-- A probe step on which `_wait_for_ready` sleeps one unit and
retries: a network error or a non-200 status. -/
def retryProbe : ProbeStep → Bool
  | .dead => false
  | .http none => true
  | .http (some code) => !(code = 200 : Bool)

/-- States of a `ComfyUIService` reachable by construction followed by
any sequence of `start` and `stop` calls under arbitrary
environments. -/
inductive Reachable : ComfyState → Prop where
  | init : Reachable initState
  | startStep (env : StartEnv) {s : ComfyState} :
      Reachable s → Reachable (start env s).2.1
  | stopStep (beh : TermBehavior) {s : ComfyState} :
      Reachable s → Reachable (stop beh s).1

/-- Invariant tying the three fields of a reachable state together:
either fully stopped or fully ready. -/
def Inv (s : ComfyState) : Prop :=
  (s.process = none ∧ s.client = none ∧ s.is_ready = false) ∨
  (s.process.isSome = true ∧ s.client.isSome = true ∧ s.is_ready = true)

/-! ## Workflow template and its mutation (image_tools.py) -/

/-- JSON-like values stored in a workflow node input dictionary: an
integer, a non-integer numeric literal, a string, or a two element
`["node", slot]` link. -/
inductive JVal where
  | i : Int → JVal
  | q : Rat → JVal
  | s : String → JVal
  | link : String → Nat → JVal
  deriving DecidableEq

/-- A ComfyUI workflow node: its `inputs` dictionary (as an ordered
association list, matching Python dict insertion order) and its
`class_type`.  The Python node dict and its nested `inputs` dict are
distinct objects, but since the code never rebinds the `inputs` key
itself the two are collapsed into one heap cell. -/
structure Node where
  inputs : List (String × JVal)
  class_type : String
  deriving DecidableEq

/-- The heap of node objects; workflow dictionaries hold references
(addresses) into it. -/
def Heap : Type := Nat → Node

/-- Assignment `d[k] = v` on an ordered association list: replaces the
value at an existing key in place, otherwise appends, exactly as a
Python dict assignment behaves with respect to iteration order. -/
def setKey : List (String × JVal) → String → JVal → List (String × JVal)
  | [], k, v => [(k, v)]
  | (k₁, v₁) :: rest, k, v =>
      if k₁ = k then (k, v) :: rest else (k₁, v₁) :: setKey rest k v

/-- `node["inputs"][k] = v` through a node reference `r`. -/
def setInput (h : Heap) (r : Nat) (k : String) (v : JVal) : Heap :=
  fun r' => if r' = r then { h r with inputs := setKey (h r).inputs k v } else h r'

/-- Indexing `d[k]` on an outer workflow dictionary mapping node names
to node references.  Every key used by the source is present. -/
def getRef (d : List (String × Nat)) (k : String) : Nat :=
  (d.lookup k).getD 0

/-- The outer dictionary of the module-level `DEFAULT_TEXT2IMG_WORKFLOW`
(image_tools.py lines 18-76): node names mapped to references of the
seven node objects allocated at module import. -/
def DEFAULT_TEXT2IMG_WORKFLOW : List (String × Nat) :=
  [("3", 3), ("4", 4), ("5", 5), ("6", 6), ("7", 7), ("8", 8), ("9", 9)]

/-- Heap contents at module import: the node objects of
`DEFAULT_TEXT2IMG_WORKFLOW`, at the references named in the outer
dictionary. -/
def defaultHeap : Heap := fun r =>
  if r = 3 then
    { inputs := [("seed", .i 0), ("steps", .i 20), ("cfg", .q 7),
        ("sampler_name", .s "euler"), ("scheduler", .s "normal"),
        ("denoise", .q 1), ("model", .link "4" 0), ("positive", .link "6" 0),
        ("negative", .link "7" 0), ("latent_image", .link "5" 0)],
      class_type := "KSampler" }
  else if r = 4 then
    { inputs := [("ckpt_name", .s "v1-5-pruned.safetensors")],
      class_type := "CheckpointLoaderSimple" }
  else if r = 5 then
    { inputs := [("width", .i 512), ("height", .i 512), ("batch_size", .i 1)],
      class_type := "EmptyLatentImage" }
  else if r = 6 then
    { inputs := [("text", .s ""), ("clip", .link "4" 1)],
      class_type := "CLIPTextEncode" }
  else if r = 7 then
    { inputs := [("text", .s "text, watermark"), ("clip", .link "4" 1)],
      class_type := "CLIPTextEncode" }
  else if r = 8 then
    { inputs := [("samples", .link "3" 0), ("vae", .link "4" 2)],
      class_type := "VAEDecode" }
  else if r = 9 then
    { inputs := [("filename_prefix", .s "felix_gen"), ("images", .link "8" 0)],
      class_type := "SaveImage" }
  else { inputs := [], class_type := "" }

/-- The workflow construction block of `generate_image` (image_tools.py
lines 117-128): `workflow = DEFAULT_TEXT2IMG_WORKFLOW.copy()` copies
the outer dictionary only (a shallow copy: the same node references),
then the seven per-call parameters are written through it, the sampler
seed last and unconditionally set to the sentinel `-1`.  The argument
list is exactly the Python signature of `generate_image`: there is no
seed parameter.  Returns the submitted outer dictionary and the
resulting heap. -/
def buildWorkflow (h : Heap) (prompt negative_prompt : String)
    (width height steps : Int) (cfg_scale : Rat) :
    List (String × Nat) × Heap :=
  let workflow := DEFAULT_TEXT2IMG_WORKFLOW
  let h := setInput h (getRef workflow "6") "text" (.s prompt)
  let h := setInput h (getRef workflow "7") "text" (.s negative_prompt)
  let h := setInput h (getRef workflow "5") "width" (.i width)
  let h := setInput h (getRef workflow "5") "height" (.i height)
  let h := setInput h (getRef workflow "3") "steps" (.i steps)
  let h := setInput h (getRef workflow "3") "cfg" (.q cfg_scale)
  let h := setInput h (getRef workflow "3") "seed" (.i (-1))
  (workflow, h)

/-! ## Job polling (generate_image, image_tools.py lines 136-170) -/

/-- One artifact reference, from `result["outputs"]["9"]["images"][k]`:
the mandatory `filename` and the `subfolder` (defaulted to the empty
string by `img_info.get("subfolder", "")`). -/
structure ImageInfo where
  filename : String
  subfolder : String
  deriving DecidableEq

/-- The history record of one job: `outputs`, when the key is present,
maps output slot names to artifact lists (the slot value is the Python
dict `{"images": [...]}`; a slot without an `images` key and a slot
with an empty list both collapse to `[]`). -/
structure JobRecord where
  outputs : Option (List (String × List ImageInfo))
  deriving DecidableEq

/-- The completion check of one poll iteration (lines 148-153): the
`outputs` key must be present, the designated primary slot `"9"` (the
SaveImage node) must be present in it, and its artifact list must be
nonempty; the first artifact is taken.  Slots other than `"9"` are
never inspected. -/
def checkRecord (r : JobRecord) : Option ImageInfo :=
  match r.outputs with
  | none => none
  | some slots =>
      match slots.lookup "9" with
      | none => none
      | some images => images.head?

/-- Environment outcome of one `service.get_history(prompt_id)` call:
either it raises (message `e`), or it returns a history dictionary
mapping job ids to records. -/
inductive PollStep where
  | raises : String → PollStep
  | history : List (String × JobRecord) → PollStep
  deriving DecidableEq

/-- A poll step on which the loop keeps waiting for the given job id:
a response whose record for the id is absent or not yet complete. -/
def retryStep (pid : String) : PollStep → Bool
  | .raises _ => false
  | .history resp => ((resp.lookup pid).bind checkRecord).isNone

/-- The artifact with which the poll loop completes on the given step,
if any. -/
def firstArtifact (pid : String) : PollStep → Option ImageInfo
  | .raises _ => none
  | .history resp => (resp.lookup pid).bind checkRecord

/-- Modelled from the spec: the completion condition as the claim words
it, namely that the record for the submitted job id reports **any**
output slot containing at least one artifact.  Used only to compare
the claimed condition with the condition the source actually tests. -/
def specAnySlotComplete (pid : String) : PollStep → Bool
  | .raises _ => false
  | .history resp =>
      match resp.lookup pid with
      | none => false
      | some r =>
          match r.outputs with
          | none => false
          | some slots => slots.any (fun sl => !sl.2.isEmpty)

/-- Terminal outcome of the poll loop: the success return at line 164,
the timeout return at line 166, or the exception handler at line 170
(carrying `str(e)`). -/
inductive PollRes where
  | completed : ImageInfo → PollRes
  | timedOut : PollRes
  | failed : String → PollRes
  deriving DecidableEq

/-- Outcome of the poll loop together with the number of history
queries issued and the total time slept. -/
structure PollOutcome where
  result : PollRes
  polls : Nat
  waited : Nat
  deriving DecidableEq

/-- The poll loop of `generate_image` (lines 136-166): with
`max_wait = 120`, while `waited < 120` the coroutine sleeps two units,
adds two to `waited`, queries history, and checks the record of the
submitted `prompt_id`; the first transport error propagates to the
exception handler, ending the loop. -/
def pollGo (env : Nat → PollStep) (pid : String) (waited polls : Nat) :
    PollOutcome :=
  if _h : waited < 120 then
    match env polls with
    | .raises e => ⟨.failed e, polls + 1, waited + 2⟩
    | .history resp =>
        match (resp.lookup pid).bind checkRecord with
        | some img => ⟨.completed img, polls + 1, waited + 2⟩
        | none => pollGo env pid (waited + 2) (polls + 1)
  else ⟨.timedOut, polls, waited⟩
  termination_by 120 - waited
  decreasing_by all_goals omega

/-- The timeout message returned at line 166. -/
def timeoutText : String :=
  "⏱️ Image generation timed out. The image may still be processing."

/-- The failure message returned at line 170, `e` being `str(e)`. -/
def failureText (e : String) : String :=
  "❌ Image generation failed: " ++ e

/-- Environment for one whole `generate_image` call. -/
structure GenEnv where
  available : Bool
  running : Bool
  startOk : Bool
  submit : Except String String
  hist : Nat → PollStep

/-- Outcome classes of `generate_image`. -/
inductive GenOutcome where
  | notAvailable : GenOutcome
  | startFailed : GenOutcome
  | submitFailed : String → GenOutcome
  | polled : PollOutcome → GenOutcome

/-- `generate_image` (image_tools.py lines 83-170) end to end: service
availability and on-demand start checks, workflow construction
(mutating the shared heap), submission, then the poll loop. -/
def generate_image (env : GenEnv) (h : Heap) (prompt negative_prompt : String)
    (width height steps : Int) (cfg_scale : Rat) : GenOutcome × Heap :=
  if env.available = false then (.notAvailable, h)
  else if env.running = false ∧ env.startOk = false then (.startFailed, h)
  else
    let wf := buildWorkflow h prompt negative_prompt width height steps cfg_scale
    match env.submit with
    | .error e => (.submitFailed e, wf.2)
    | .ok pid => (.polled (pollGo env.hist pid 0 0), wf.2)

/-! ## Job submission (ComfyUIService.queue_prompt, lines 207-231) -/

/-- The JSON body posted to `/prompt`: the workflow and the client
identifier. -/
structure JobSubmissionPayload (α : Type) where
  prompt : α
  client_id : String
  deriving DecidableEq

/-- Environment view of the `/prompt` response: its status code and
`result.get("prompt_id")`. -/
structure PromptResponse where
  status : Nat
  prompt_id : Option String
  deriving DecidableEq

/-- Failure channels of `queue_prompt`: the `RuntimeError` raised when
no client exists, or the `HTTPStatusError` raised by
`raise_for_status` on a non-2xx response. -/
inductive QueueError where
  | notStarted : QueueError
  | httpStatus : Nat → QueueError
  deriving DecidableEq

/-- `ComfyUIService.queue_prompt`: requires a client, posts the payload
`{"prompt": prompt, "client_id": "felix"}` with the client identifier
fixed by the implementation, and on HTTP success returns
`result.get("prompt_id")`.  The successful value also carries the
payload that was posted, so that theorems can speak about it. -/
def queue_prompt {α : Type} (hasClient : Bool) (w : α) (resp : PromptResponse) :
    Except QueueError (JobSubmissionPayload α × Option String) :=
  if hasClient = false then .error .notStarted
  else if 200 ≤ resp.status ∧ resp.status ≤ 299 then
    .ok ({ prompt := w, client_id := "felix" }, resp.prompt_id)
  else .error (.httpStatus resp.status)

/-- Modelled from the spec: a `JobSubmission` whose client identifier
is chosen by the caller of the submit operation. -/
def specJobSubmission {α : Type} (w : α) (cid : String) : JobSubmissionPayload α :=
  { prompt := w, client_id := cid }

/-! ## Concrete environments used by witnesses and counterexamples -/

/-- A service state whose process is alive and whose lifecycle state is
ready. -/
def c1StateW : ComfyState :=
  { process := some 7, client := some 1, is_ready := true }

/-- A start environment in which every pid is reported alive. -/
def c1EnvW : StartEnv :=
  { alive := fun _ => true, spawn := none, probe := fun _ => ProbeStep.dead,
    stopBeh := .exitsGracefully, clientId := 0 }

/-- A start environment in which `Popen` raises. -/
def c6EnvW : StartEnv :=
  { alive := fun _ => false, spawn := none, probe := fun _ => ProbeStep.http none,
    stopBeh := .exitsGracefully, clientId := 0 }

/-- A probe environment: two network errors, then the process is found
dead. -/
def c5EnvW : Nat → ProbeStep :=
  fun j => if j < 2 then .http none else .dead

/-- The artifact used by the C3 scenarios. -/
def c3Artifact : ImageInfo :=
  { filename := "felix_gen_001.png", subfolder := "" }

/-- A job record reporting one artifact in output slot `"8"` and
nothing in the primary slot `"9"`. -/
def c3Record : JobRecord :=
  { outputs := some [("8", [c3Artifact])] }

/-- A job record reporting one artifact in the primary slot `"9"`. -/
def c3RecordW : JobRecord :=
  { outputs := some [("9", [c3Artifact])] }

/-- A history environment in which, from the very first poll, the
record of job `"job-1"` reports one artifact in output slot `"8"` and
nothing in the primary slot `"9"`. -/
def c3Env : Nat → PollStep :=
  fun _ => .history [("job-1", c3Record)]

/-- A history environment: two polls with an empty history, then the
record of `"job-1"` reports an artifact in the primary slot `"9"`. -/
def c3EnvW : Nat → PollStep :=
  fun j => if j < 2 then .history [] else .history [("job-1", c3RecordW)]

/-- A history environment: one empty poll, then `get_history`
raises. -/
def c4EnvW : Nat → PollStep :=
  fun j => if j = 0 then .history [] else .raises "connection reset"

/-! ## Association list lemmas -/

theorem setKey_lookup_same (l : List (String × JVal)) (k : String) (v : JVal) :
    (setKey l k v).lookup k = some v := by
  induction l with
  | nil => simp [setKey]
  | cons hd tl ih =>
      obtain ⟨k₁, v₁⟩ := hd
      by_cases hk : k₁ = k
      · simp [setKey, hk]
      · simp only [setKey, if_neg hk, List.lookup_cons]
        rw [beq_false_of_ne (fun h => hk h.symm)]
        exact ih

theorem setKey_lookup_ne (l : List (String × JVal)) (k₁ : String) (v : JVal)
    (k : String) (hne : k₁ ≠ k) :
    (setKey l k₁ v).lookup k = l.lookup k := by
  induction l with
  | nil =>
      simp [setKey]
      exact fun h => hne h.symm
  | cons hd tl ih =>
      obtain ⟨k₂, v₂⟩ := hd
      by_cases hk : k₂ = k₁
      · subst hk
        simp [setKey, List.lookup_cons, beq_false_of_ne (fun h => hne h.symm)]
      · simp only [setKey, if_neg hk, List.lookup_cons, ih]

/-! ## Readiness prober lemmas -/

theorem waitReadyGo_deadline (env : Nat → ProbeStep) (timeout : Nat) :
    ∀ (k elapsed : Nat), timeout = elapsed + k →
    (∀ j, elapsed ≤ j → j < timeout → retryProbe (env j) = true) →
    waitReadyGo env timeout elapsed = (.timeout, timeout) := by
  intro k
  induction k with
  | zero =>
      intro elapsed hk _
      rw [waitReadyGo]
      have hnl : ¬ elapsed < timeout := by omega
      simp [hnl]
      omega
  | succ k ih =>
      intro elapsed hk hr
      have hlt : elapsed < timeout := by omega
      rw [waitReadyGo, dif_pos hlt]
      have hri := hr elapsed (Nat.le_refl _) hlt
      cases henv : env elapsed with
      | dead => rw [henv] at hri; simp [retryProbe] at hri
      | http o =>
          cases o with
          | none =>
              exact ih (elapsed + 1) (by omega) (fun j h1 h2 => hr j (by omega) h2)
          | some code =>
              rw [henv] at hri
              simp [retryProbe] at hri
              simp only [if_neg hri]
              exact ih (elapsed + 1) (by omega) (fun j h1 h2 => hr j (by omega) h2)

theorem waitReadyGo_dead (env : Nat → ProbeStep) (timeout i : Nat) :
    ∀ (k elapsed : Nat), i = elapsed + k → i < timeout →
    (∀ j, elapsed ≤ j → j < i → retryProbe (env j) = true) →
    env i = .dead →
    waitReadyGo env timeout elapsed = (.died, i) := by
  intro k
  induction k with
  | zero =>
      intro elapsed hk hit _ henv
      have he : elapsed = i := by omega
      subst he
      rw [waitReadyGo, dif_pos hit, henv]
  | succ k ih =>
      intro elapsed hk hit hr henv
      have hlt : elapsed < timeout := by omega
      rw [waitReadyGo, dif_pos hlt]
      have hri := hr elapsed (Nat.le_refl _) (by omega)
      cases he : env elapsed with
      | dead => rw [he] at hri; simp [retryProbe] at hri
      | http o =>
          cases o with
          | none =>
              exact ih (elapsed + 1) (by omega) hit (fun j h1 h2 => hr j (by omega) h2) henv
          | some code =>
              rw [he] at hri
              simp [retryProbe] at hri
              simp only [if_neg hri]
              exact ih (elapsed + 1) (by omega) hit (fun j h1 h2 => hr j (by omega) h2) henv

theorem waitReadyGo_ready (env : Nat → ProbeStep) (timeout i : Nat) :
    ∀ (k elapsed : Nat), i = elapsed + k → i < timeout →
    (∀ j, elapsed ≤ j → j < i → retryProbe (env j) = true) →
    env i = .http (some 200) →
    waitReadyGo env timeout elapsed = (.ready, i) := by
  intro k
  induction k with
  | zero =>
      intro elapsed hk hit _ henv
      have he : elapsed = i := by omega
      subst he
      rw [waitReadyGo, dif_pos hit, henv]
      simp
  | succ k ih =>
      intro elapsed hk hit hr henv
      have hlt : elapsed < timeout := by omega
      rw [waitReadyGo, dif_pos hlt]
      have hri := hr elapsed (Nat.le_refl _) (by omega)
      cases he : env elapsed with
      | dead => rw [he] at hri; simp [retryProbe] at hri
      | http o =>
          cases o with
          | none =>
              exact ih (elapsed + 1) (by omega) hit (fun j h1 h2 => hr j (by omega) h2) henv
          | some code =>
              rw [he] at hri
              simp [retryProbe] at hri
              simp only [if_neg hri]
              exact ih (elapsed + 1) (by omega) hit (fun j h1 h2 => hr j (by omega) h2) henv

/-! ## Stop and invariant lemmas -/

theorem stop_state_cleared (beh : TermBehavior) (s : ComfyState)
    (h : s.process = none → s.is_ready = false) :
    (stop beh s).1 = initState := by
  obtain ⟨p, c, r⟩ := s
  cases p with
  | none =>
      have hr : r = false := h rfl
      subst hr
      cases c <;> simp [stop, initState]
  | some pid => cases c <;> simp [stop, initState]

theorem stop_trace_head (beh : TermBehavior) (s : ComfyState)
    (h : s.client.isSome = true) :
    ((stop beh s).2).head? = some Action.closeClient := by
  obtain ⟨p, c, r⟩ := s
  cases c with
  | none => simp at h
  | some cid => cases p <;> simp [stop]

theorem stop_trace_noClose (beh : TermBehavior) (s : ComfyState)
    (h : s.client = none) :
    Action.closeClient ∉ (stop beh s).2 := by
  obtain ⟨p, c, r⟩ := s
  simp at h
  subst h
  cases p with
  | none => simp [stop]
  | some pid => cases beh <;> simp [stop]

theorem inv_initState : Inv initState :=
  Or.inl ⟨rfl, rfl, rfl⟩

theorem inv_implies_clear (s : ComfyState) (hs : Inv s) :
    s.process = none → s.is_ready = false := by
  intro hp
  rcases hs with ⟨_, _, h3⟩ | ⟨h1, _, _⟩
  · exact h3
  · rw [hp] at h1; simp at h1

theorem inv_stop (beh : TermBehavior) (s : ComfyState) (hs : Inv s) :
    Inv (stop beh s).1 := by
  rw [stop_state_cleared beh s (inv_implies_clear s hs)]
  exact inv_initState

theorem inv_start (env : StartEnv) (s : ComfyState) (hs : Inv s) :
    Inv (start env s).2.1 := by
  unfold start
  by_cases hrun : s.is_running env.alive
  · simp [hrun]; exact hs
  · simp only [hrun, Bool.false_eq_true, if_false]
    cases hsp : env.spawn with
    | none =>
        simp only []
        exact inv_stop env.stopBeh s hs
    | some pid =>
        cases hready : readyBool (wait_for_ready env.probe 30).1 with
        | true =>
            simp [hready]
            exact Or.inr ⟨rfl, rfl, rfl⟩
        | false =>
            simp [hready]
            have := stop_state_cleared env.stopBeh
              { s with process := some pid, is_ready := false }
              (fun hcontra => by simp at hcontra)
            rw [this]
            exact inv_initState

theorem reachable_inv (s : ComfyState) (h : Reachable s) : Inv s := by
  induction h with
  | init => exact inv_initState
  | startStep env hs ih => exact inv_start env _ ih
  | stopStep beh hs ih => exact inv_stop beh _ ih

/-! ## Poll loop lemmas -/

theorem pollGo_deadline (env : Nat → PollStep) (pid : String) :
    ∀ (k polls waited : Nat), waited + 2 * k = 120 →
    (∀ j, j < k → retryStep pid (env (polls + j)) = true) →
    pollGo env pid waited polls = ⟨.timedOut, polls + k, 120⟩ := by
  intro k
  induction k with
  | zero =>
      intro polls waited hw _
      rw [pollGo]
      have hnl : ¬ waited < 120 := by omega
      simp [hnl]
      omega
  | succ k ih =>
      intro polls waited hw hr
      have hlt : waited < 120 := by omega
      rw [pollGo, dif_pos hlt]
      have h0 := hr 0 (Nat.succ_pos k)
      rw [Nat.add_zero] at h0
      cases henv : env polls with
      | raises e => rw [henv] at h0; simp [retryStep] at h0
      | history resp =>
          rw [henv] at h0
          simp only [retryStep, Option.isNone_iff_eq_none] at h0
          simp only [h0]
          have := ih (polls + 1) (waited + 2) (by omega)
            (fun j hj => by
              have h2 := hr (j + 1) (by omega)
              rwa [show polls + (j + 1) = polls + 1 + j by omega] at h2)
          rw [this]
          simp only [PollOutcome.mk.injEq, true_and, and_true]
          try omega

theorem pollGo_raises_at (env : Nat → PollStep) (pid : String) (e : String) :
    ∀ (m polls waited : Nat),
    (∀ j, j < m → retryStep pid (env (polls + j)) = true) →
    waited + 2 * m < 120 → env (polls + m) = .raises e →
    pollGo env pid waited polls = ⟨.failed e, polls + m + 1, waited + 2 * m + 2⟩ := by
  intro m
  induction m with
  | zero =>
      intro polls waited _ hlt henv
      rw [Nat.add_zero] at henv
      rw [pollGo, dif_pos (by omega : waited < 120), henv]
  | succ m ih =>
      intro polls waited hr hlt henv
      have hl : waited < 120 := by omega
      rw [pollGo, dif_pos hl]
      have h0 := hr 0 (Nat.succ_pos m)
      rw [Nat.add_zero] at h0
      cases he : env polls with
      | raises e2 => rw [he] at h0; simp [retryStep] at h0
      | history resp =>
          rw [he] at h0
          simp only [retryStep, Option.isNone_iff_eq_none] at h0
          simp only [h0]
          have := ih (polls + 1) (waited + 2)
            (fun j hj => by
              have h2 := hr (j + 1) (by omega)
              rwa [show polls + (j + 1) = polls + 1 + j by omega] at h2)
            (by omega)
            (by rwa [show polls + 1 + m = polls + (m + 1) by omega])
          rw [this]
          simp only [PollOutcome.mk.injEq, true_and, and_true]
          try omega

theorem pollGo_completes_at (env : Nat → PollStep) (pid : String) (img : ImageInfo) :
    ∀ (m polls waited : Nat),
    (∀ j, j < m → retryStep pid (env (polls + j)) = true) →
    waited + 2 * m < 120 → firstArtifact pid (env (polls + m)) = some img →
    pollGo env pid waited polls = ⟨.completed img, polls + m + 1, waited + 2 * m + 2⟩ := by
  intro m
  induction m with
  | zero =>
      intro polls waited _ hlt hart
      rw [Nat.add_zero] at hart
      rw [pollGo, dif_pos (by omega : waited < 120)]
      cases he : env polls with
      | raises e => rw [he] at hart; simp [firstArtifact] at hart
      | history resp =>
          rw [he] at hart
          simp only [firstArtifact] at hart
          simp only [hart]
  | succ m ih =>
      intro polls waited hr hlt hart
      have hl : waited < 120 := by omega
      rw [pollGo, dif_pos hl]
      have h0 := hr 0 (Nat.succ_pos m)
      rw [Nat.add_zero] at h0
      cases he : env polls with
      | raises e2 => rw [he] at h0; simp [retryStep] at h0
      | history resp =>
          rw [he] at h0
          simp only [retryStep, Option.isNone_iff_eq_none] at h0
          simp only [h0]
          have := ih (polls + 1) (waited + 2)
            (fun j hj => by
              have h2 := hr (j + 1) (by omega)
              rwa [show polls + (j + 1) = polls + 1 + j by omega] at h2)
            (by omega)
            (by rwa [show polls + 1 + m = polls + (m + 1) by omega])
          rw [this]
          simp only [PollOutcome.mk.injEq, true_and, and_true]
          try omega

/-! ## Claim theorems -/

/-- Claim C1: for every `ComfyUIService` whose supervised process is
already running and whose state is ready, `start()` returns success
immediately, performs no side effect (in particular spawns no process),
and leaves the whole state, including the process identity,
unchanged. -/
theorem start_idempotent_when_running_ready (env : StartEnv) (s : ComfyState)
    (p : Nat) (hp : s.process = some p) (halive : env.alive p = true)
    (_hready : s.is_ready = true) :
    start env s = (true, s, []) := by
  have hrun : s.is_running env.alive = true := by
    simp [ComfyState.is_running, hp, halive]
  unfold start
  simp [hrun]

/-- Witness for claim C1 at a concrete ready state and environment. -/
theorem start_idempotent_when_running_ready_witness :
    c1StateW.process = some 7 ∧ c1EnvW.alive 7 = true ∧
    c1StateW.is_ready = true ∧ start c1EnvW c1StateW = (true, c1StateW, []) :=
  ⟨rfl, rfl, rfl,
    start_idempotent_when_running_ready c1EnvW c1StateW 7 rfl rfl rfl⟩

/-- Claim C2: `stop()` is safe in every reachable state, including when
no process was ever started; it is a total function of the state and
the environment behavior (every exception of the signaling block is an
environment case absorbed by the handler at line 166, so no exception
escapes); when a client exists it is closed first; and on return the
process reference is cleared, the client discarded and the readiness
flag false, i.e. the state is exactly the `Stopped` state. -/
theorem stop_safe_and_clears (beh : TermBehavior) (s : ComfyState)
    (hreach : Reachable s) :
    (stop beh s).1 = initState
    ∧ (s.client.isSome = true → ((stop beh s).2).head? = some Action.closeClient)
    ∧ (s.client = none → Action.closeClient ∉ (stop beh s).2) :=
  ⟨stop_state_cleared beh s (inv_implies_clear s (reachable_inv s hreach)),
    stop_trace_head beh s, stop_trace_noClose beh s⟩

/-- Witness for claim C2: stopping a never-started service under a
signaling behavior that needs the forced kill path. -/
theorem stop_safe_and_clears_witness :
    (stop TermBehavior.forcedKill initState).1 = initState
    ∧ (initState.client = none →
        Action.closeClient ∉ (stop TermBehavior.forcedKill initState).2) :=
  ⟨(stop_safe_and_clears TermBehavior.forcedKill initState Reachable.init).1,
    (stop_safe_and_clears TermBehavior.forcedKill initState Reachable.init).2.2⟩

/-- Claim C3 (amended): the job is considered complete the first time
the history record for the submitted job id reports the designated
primary output slot `"9"` containing at least one artifact; the poller
returns that slot's first artifact after `m + 1` polls (no further
polling) and `2m + 2` time units.  An artifact in any other output
slot does not complete the job (see the counterexample). -/
theorem history_primary_slot_completion (env : Nat → PollStep) (pid : String)
    (m : Nat) (img : ImageInfo)
    (hpre : ∀ j, j < m → retryStep pid (env j) = true) (hm : m < 60)
    (hart : firstArtifact pid (env m) = some img) :
    pollGo env pid 0 0 = ⟨.completed img, m + 1, 2 * m + 2⟩ := by
  have h := pollGo_completes_at env pid img m 0 0
    (fun j hj => by simpa using hpre j hj) (by omega) (by simpa using hart)
  simpa using h

/-- Counterexample to claim C3 as stated: from the very first poll the
history record of the submitted job reports an output slot (slot
`"8"`) containing an artifact, so by the claim the job is complete at
the first poll with no further polling; the code instead ignores every
slot except `"9"`, polls 60 times and times out. -/
theorem history_any_slot_completion_refuted :
    specAnySlotComplete "job-1" (c3Env 0) = true
    ∧ pollGo c3Env "job-1" 0 0 = ⟨.timedOut, 60, 120⟩ := by
  constructor
  · decide
  · have h := pollGo_deadline c3Env "job-1" 60 0 0 (by omega)
      (fun j hj => by
        simp [c3Env, retryStep, c3Record, checkRecord, c3Artifact, List.lookup])
    simpa using h

/-- Witness for the amended claim C3, mirroring the worked example of
the spec: the record first reports the primary-slot artifact on the
third poll (index 2), and the poller returns it after exactly 3 polls
and 6 time units. -/
theorem history_primary_slot_completion_witness :
    (∀ j, j < 2 → retryStep "job-1" (c3EnvW j) = true) ∧ 2 < 60
    ∧ firstArtifact "job-1" (c3EnvW 2) = some c3Artifact
    ∧ pollGo c3EnvW "job-1" 0 0 = ⟨.completed c3Artifact, 3, 6⟩ := by
  refine ⟨by decide, by omega, by decide, ?_⟩
  have h := history_primary_slot_completion c3EnvW "job-1" 2 c3Artifact
    (by decide) (by omega) (by decide)
  simpa using h

/-- Claim C4: exhausting the polling budget (60 polls of 2 time units
each, 120 units total) without an artifact yields the timeout outcome,
which is distinct from the hard failure outcome both as a value and as
a user-visible message (the timeout message says the image may still
be processing); and the first transport error while polling aborts the
wait immediately with the failure outcome, with no retry past it. -/
theorem poll_timeout_distinct_from_transport_failure (env : Nat → PollStep)
    (pid : String) (i : Nat) (e : String) :
    ((∀ j, j < 60 → retryStep pid (env j) = true) →
        pollGo env pid 0 0 = ⟨.timedOut, 60, 120⟩)
    ∧ (PollRes.timedOut ≠ PollRes.failed e ∧ timeoutText ≠ failureText e)
    ∧ ((∀ j, j < i → retryStep pid (env j) = true) → i < 60 →
        env i = .raises e →
        pollGo env pid 0 0 = ⟨.failed e, i + 1, 2 * i + 2⟩) := by
  refine ⟨?_, ⟨?_, ?_⟩, ?_⟩
  · intro h1
    have h := pollGo_deadline env pid 60 0 0 (by omega)
      (fun j hj => by simpa using h1 j hj)
    simpa using h
  · intro h
    cases h
  · intro h
    have h2 : timeoutText.data.head? = (failureText e).data.head? := by rw [h]
    rw [show failureText e = "❌ Image generation failed: " ++ e from rfl,
      String.data_append, List.head?_append] at h2
    simp [timeoutText] at h2
  · intro h1 h2 h3
    have h := pollGo_raises_at env pid e i 0 0
      (fun j hj => by simpa using h1 j hj) (by omega) (by simpa using h3)
    simpa using h

/-- Witness for claim C4: one clean poll, then a transport error on
the second poll aborts the wait at once with the failure outcome. -/
theorem poll_timeout_distinct_from_transport_failure_witness :
    (∀ j, j < 1 → retryStep "p-1" (c4EnvW j) = true) ∧ 1 < 60
    ∧ c4EnvW 1 = .raises "connection reset"
    ∧ pollGo c4EnvW "p-1" 0 0 = ⟨.failed "connection reset", 2, 4⟩ := by
  refine ⟨by decide, by omega, rfl, ?_⟩
  have h := (poll_timeout_distinct_from_transport_failure c4EnvW "p-1" 1
    "connection reset").2.2 (by decide) (by omega) rfl
  simpa using h

/-- Claim C5: on every iteration of `_wait_for_ready` liveness is
checked first, so a dead process at iteration `i < timeout` returns
the died failure at elapsed time `i`, well before the deadline; a 200
from the health endpoint returns ready at elapsed time `i`; every
network error or non-success status sleeps one unit and retries; and
only once the deadline has elapsed does the prober report the timeout
(not-ready) result, at elapsed time exactly `timeout`. -/
theorem readiness_probe_behavior (env : Nat → ProbeStep) (timeout i : Nat) :
    ((∀ j, j < i → retryProbe (env j) = true) → i < timeout →
        env i = .dead → wait_for_ready env timeout = (.died, i))
    ∧ ((∀ j, j < i → retryProbe (env j) = true) → i < timeout →
        env i = .http (some 200) → wait_for_ready env timeout = (.ready, i))
    ∧ ((∀ j, j < timeout → retryProbe (env j) = true) →
        wait_for_ready env timeout = (.timeout, timeout)) := by
  refine ⟨?_, ?_, ?_⟩
  · intro h1 h2 h3
    exact waitReadyGo_dead env timeout i i 0 (by omega) h2
      (fun j hj1 hj2 => h1 j hj2) h3
  · intro h1 h2 h3
    exact waitReadyGo_ready env timeout i i 0 (by omega) h2
      (fun j hj1 hj2 => h1 j hj2) h3
  · intro h1
    exact waitReadyGo_deadline env timeout timeout 0 (by omega)
      (fun j hj1 hj2 => h1 j hj2)

/-- Witness for claim C5: two failed probes, then the process is found
dead at iteration 2, and the prober returns died at elapsed time 2,
far before the 30 unit deadline. -/
theorem readiness_probe_behavior_witness :
    (∀ j, j < 2 → retryProbe (c5EnvW j) = true) ∧ 2 < 30
    ∧ c5EnvW 2 = ProbeStep.dead
    ∧ wait_for_ready c5EnvW 30 = (.died, 2) :=
  ⟨by decide, by omega, rfl,
    (readiness_probe_behavior c5EnvW 30 2).1 (by decide) (by omega) rfl⟩

/-- Claim C6: whenever the service is not already running and either
spawning raises or readiness is not achieved (timeout or process
death), `start()` absorbs the failure (both failure sources are
environment cases handled by the code, so no exception escapes),
invokes `stop()` and returns failure, leaving the state cleaned to the
stopped state. -/
theorem start_absorbs_failures (env : StartEnv) (s : ComfyState)
    (hreach : Reachable s) (hrun : s.is_running env.alive = false)
    (hfail : env.spawn = none ∨
      readyBool (wait_for_ready env.probe 30).1 = false) :
    (start env s).1 = false ∧ (start env s).2.1 = initState := by
  have hclear := inv_implies_clear s (reachable_inv s hreach)
  unfold start
  rw [hrun]
  simp only [Bool.false_eq_true, if_false]
  cases hsp : env.spawn with
  | none =>
      exact ⟨rfl, stop_state_cleared env.stopBeh s hclear⟩
  | some pid =>
      have hrdy : readyBool (wait_for_ready env.probe 30).1 = false := by
        rcases hfail with hcontra | hgood
        · rw [hsp] at hcontra; cases hcontra
        · exact hgood
      simp only [hrdy, Bool.false_eq_true, if_false]
      exact ⟨trivial, stop_state_cleared env.stopBeh _ (fun _ => rfl)⟩

/-- Witness for claim C6: a never-started service whose spawn raises. -/
theorem start_absorbs_failures_witness :
    ComfyState.is_running initState c6EnvW.alive = false
    ∧ (start c6EnvW initState).1 = false
    ∧ (start c6EnvW initState).2.1 = initState :=
  ⟨rfl,
    (start_absorbs_failures c6EnvW initState Reachable.init rfl (Or.inl rfl)).1,
    (start_absorbs_failures c6EnvW initState Reachable.init rfl (Or.inl rfl)).2⟩

/-- Claim C7: in every state reachable by construction and any
sequence of `start()` and `stop()` calls, the service holds a live
client exactly when its readiness flag is set. -/
theorem client_iff_ready (s : ComfyState) (hreach : Reachable s) :
    s.client.isSome = s.is_ready := by
  rcases reachable_inv s hreach with ⟨h1, h2, h3⟩ | ⟨h1, h2, h3⟩
  · rw [h2, h3]; rfl
  · rw [h2, h3]

/-- Witness for claim C7 at the initial state. -/
theorem client_iff_ready_witness :
    initState.client.isSome = initState.is_ready :=
  client_iff_ready initState Reachable.init

/-- Claim C8 (amended): the payload posted by `queue_prompt` consists
of the opaque workflow plus the client identifier fixed to `"felix"`
by the implementation (not chosen by the caller of the submit
operation), and on HTTP success the service-assigned prompt id from
the response is returned. -/
theorem submit_fixed_client_id (α : Type) (w : α) (resp : PromptResponse)
    (h1 : 200 ≤ resp.status) (h2 : resp.status ≤ 299) :
    queue_prompt true w resp
      = Except.ok ({ prompt := w, client_id := "felix" }, resp.prompt_id) := by
  unfold queue_prompt
  rw [if_neg (by simp), if_pos ⟨h1, h2⟩]

/-- Counterexample to claim C8 as stated: the posted payload carries
the fixed identifier `"felix"`; it is not the submission the spec
describes for a caller who chose the identifier `"alice"`, because the
submit operation accepts no identifier from its caller at all. -/
theorem submit_caller_chosen_id_refuted :
    queue_prompt true "wf-1" { status := 200, prompt_id := some "job-42" }
      = Except.ok ({ prompt := "wf-1", client_id := "felix" }, some "job-42")
    ∧ ({ prompt := "wf-1", client_id := "felix" } : JobSubmissionPayload String)
      ≠ specJobSubmission "wf-1" "alice" := by
  refine ⟨rfl, ?_⟩
  intro h
  have h2 := congrArg JobSubmissionPayload.client_id h
  simp [specJobSubmission] at h2

/-- Witness for the amended claim C8 on a 201 response. -/
theorem submit_fixed_client_id_witness :
    (200 : Nat) ≤ 201 ∧ (201 : Nat) ≤ 299
    ∧ queue_prompt true "wf-1" { status := 201, prompt_id := some "job-7" }
      = Except.ok ({ prompt := "wf-1", client_id := "felix" }, some "job-7") :=
  ⟨by omega, by omega,
    submit_fixed_client_id String "wf-1"
      { status := 201, prompt_id := some "job-7" } (by decide) (by decide)⟩

/-- Claim C9: for every invocation of `generate_image`, whatever the
caller supplied for every parameter of its signature (which has no
seed parameter), the workflow submitted via `queue_prompt` carries the
sentinel seed `-1` in the sampler node. -/
theorem workflow_seed_sentinel (h : Heap) (prompt negative_prompt : String)
    (width height steps : Int) (cfg_scale : Rat) :
    (((buildWorkflow h prompt negative_prompt width height steps cfg_scale).2
        (getRef (buildWorkflow h prompt negative_prompt width height steps
          cfg_scale).1 "3")).inputs).lookup "seed" = some (JVal.i (-1)) := by
  simp [buildWorkflow, setInput, getRef, DEFAULT_TEXT2IMG_WORKFLOW,
    List.lookup, Option.getD, setKey_lookup_same, setKey_lookup_ne]

/-- Claim C10: `generate_image` copies the template shallowly (the
returned outer dictionary is the very template dictionary, holding the
same node references), so after any call the module-level template
nodes carry that call's arguments: both prompt texts, the latent
width and height, and the sampler steps, cfg and sentinel seed. -/
theorem shared_template_mutation (h : Heap) (prompt negative_prompt : String)
    (width height steps : Int) (cfg_scale : Rat) :
    (buildWorkflow h prompt negative_prompt width height steps cfg_scale).1
      = DEFAULT_TEXT2IMG_WORKFLOW
    ∧ (((buildWorkflow h prompt negative_prompt width height steps cfg_scale).2
        (getRef DEFAULT_TEXT2IMG_WORKFLOW "6")).inputs).lookup "text"
      = some (JVal.s prompt)
    ∧ (((buildWorkflow h prompt negative_prompt width height steps cfg_scale).2
        (getRef DEFAULT_TEXT2IMG_WORKFLOW "7")).inputs).lookup "text"
      = some (JVal.s negative_prompt)
    ∧ (((buildWorkflow h prompt negative_prompt width height steps cfg_scale).2
        (getRef DEFAULT_TEXT2IMG_WORKFLOW "5")).inputs).lookup "width"
      = some (JVal.i width)
    ∧ (((buildWorkflow h prompt negative_prompt width height steps cfg_scale).2
        (getRef DEFAULT_TEXT2IMG_WORKFLOW "5")).inputs).lookup "height"
      = some (JVal.i height)
    ∧ (((buildWorkflow h prompt negative_prompt width height steps cfg_scale).2
        (getRef DEFAULT_TEXT2IMG_WORKFLOW "3")).inputs).lookup "steps"
      = some (JVal.i steps)
    ∧ (((buildWorkflow h prompt negative_prompt width height steps cfg_scale).2
        (getRef DEFAULT_TEXT2IMG_WORKFLOW "3")).inputs).lookup "cfg"
      = some (JVal.q cfg_scale)
    ∧ (((buildWorkflow h prompt negative_prompt width height steps cfg_scale).2
        (getRef DEFAULT_TEXT2IMG_WORKFLOW "3")).inputs).lookup "seed"
      = some (JVal.i (-1)) := by
  refine ⟨rfl, ?_, ?_, ?_, ?_, ?_, ?_, ?_⟩ <;>
    simp [buildWorkflow, setInput, getRef, DEFAULT_TEXT2IMG_WORKFLOW,
      List.lookup, Option.getD, setKey_lookup_same, setKey_lookup_ne]

end Felix
